import Mathlib

/-!
Verification development for the APRS_PY repository (`aprs/classes.py`).

The Python source is shallowly embedded: Python 2 byte strings (`str`) are
`List Nat` (byte values), decoded unicode strings are `List Char`, fallible
code (a Python exception escaping) is `Option`, and object attribute
mutation is explicit state passing over structures.
-/

/-- Python 2 `str.strip()` whitespace set for ASCII data:
space, tab, LF, CR, vertical tab, form feed. -/
def isPyWs (ch : Char) : Bool :=
  ch = ' ' || ch = '\t' || ch = '\n' || ch = '\r' || ch = '\x0b' || ch = '\x0c'

/-- The same whitespace set on raw bytes. -/
def isPyWsB (b : Nat) : Bool :=
  b = 32 || b = 9 || b = 10 || b = 13 || b = 11 || b = 12

/-- Python `s.lstrip().rstrip()` / `s.strip()` on a decoded string:
drop the given character class from both ends. -/
def stripEnds {α : Type} (p : α → Bool) (l : List α) : List α :=
  ((l.dropWhile p).reverse.dropWhile p).reverse

/-- Python `s.strip()` on a decoded string (default whitespace set). -/
def pyStripWs (l : List Char) : List Char := stripEnds isPyWs l

/-- Python `s.strip()` on a byte string. -/
def pyStripWsB (l : List Nat) : List Nat := stripEnds isPyWsB l

/-- Python `s.strip(c)` for a single character `c`: removes every leading
and trailing occurrence of `c` (not just one). -/
def pyStripChar (c : Char) (l : List Char) : List Char := stripEnds (· = c) l

/-- Python `c in s` membership test on a decoded string. -/
def hasChar (c : Char) : List Char → Bool
  | [] => false
  | x :: xs => x = c || hasChar c xs

/-- Tests whether the last character of a string is `c`
(Python `s.endswith(c)` for a one-character `c`). -/
def lastIs (c : Char) : List Char → Bool
  | [] => false
  | [x] => x = c
  | _ :: y :: ys => lastIs c (y :: ys)

/-- Python `s.split(sep)` for a one-character separator: no maxsplit,
always returns at least one piece, keeps empty pieces. -/
def splitOnChar (sep : Char) : List Char → List (List Char)
  | [] => [[]]
  | c :: rest =>
    if c = sep then [] :: splitOnChar sep rest
    else
      match splitOnChar sep rest with
      | [] => [[c]]
      | l :: ls => (c :: l) :: ls

/-- Python `sep.join(pieces)`. -/
def joinWith {α : Type} (sep : List α) : List (List α) → List α
  | [] => []
  | [x] => x
  | x :: y :: ys => x ++ sep ++ joinWith sep (y :: ys)

/-- Bytes of an ASCII string literal, for stating concrete inputs. -/
def asciiBytes (s : String) : List Nat := s.toList.map Char.toNat

/-- Python 2 `int(s)` on a stripped decimal string: optional sign, at
least one digit, nothing else; `None` models the `ValueError`. -/
def pyInt (s : List Char) : Option Int :=
  let t := pyStripWs s
  match t with
  | '-' :: ds =>
    if ds ≠ [] ∧ ds.all Char.isDigit then
      some (-(ds.foldl (fun a c => a * 10 + (c.toNat - 48)) 0 : Nat))
    else none
  | '+' :: ds =>
    if ds ≠ [] ∧ ds.all Char.isDigit then
      some ((ds.foldl (fun a c => a * 10 + (c.toNat - 48)) 0 : Nat))
    else none
  | ds =>
    if ds ≠ [] ∧ ds.all Char.isDigit then
      some ((ds.foldl (fun a c => a * 10 + (c.toNat - 48)) 0 : Nat))
    else none

/-! ## UTF-8 decoding and encoding

`Frame.parse_text` starts with `self.frame.decode('UTF-8')`; a
`UnicodeDecodeError` from that call is the one exception `Frame.parse`
catches. We model a strict UTF-8 decoder: `none` models the error. -/

/-- Tests for a UTF-8 continuation byte `0x80..0xBF`. -/
def utf8Cont (b : Nat) : Bool := 128 ≤ b && b < 192

/-- Strict UTF-8 decoding of a byte string, as Python 2's
`str.decode('UTF-8')`: rejects stray continuation bytes, overlong forms,
surrogates and out-of-range code points; `none` models
`UnicodeDecodeError`. -/
def decodeUtf8 : List Nat → Option (List Char)
  | [] => some []
  | b :: rest =>
    if b < 128 then (Char.ofNat b :: ·) <$> decodeUtf8 rest
    else if b < 194 then none
    else if b < 224 then
      match rest with
      | b1 :: rest' =>
        if utf8Cont b1 then
          (Char.ofNat ((b - 192) * 64 + (b1 - 128)) :: ·) <$> decodeUtf8 rest'
        else none
      | _ => none
    else if b < 240 then
      match rest with
      | b1 :: b2 :: rest' =>
        if utf8Cont b1 && utf8Cont b2 then
          let cp := (b - 224) * 4096 + (b1 - 128) * 64 + (b2 - 128)
          if cp < 2048 ∨ (55296 ≤ cp ∧ cp ≤ 57343) then none
          else (Char.ofNat cp :: ·) <$> decodeUtf8 rest'
        else none
      | _ => none
    else if b < 245 then
      match rest with
      | b1 :: b2 :: b3 :: rest' =>
        if utf8Cont b1 && utf8Cont b2 && utf8Cont b3 then
          let cp := (b - 240) * 262144 + (b1 - 128) * 4096 +
            (b2 - 128) * 64 + (b3 - 128)
          if cp < 65536 ∨ 1114112 ≤ cp then none
          else (Char.ofNat cp :: ·) <$> decodeUtf8 rest'
        else none
      | _ => none
    else none

/-- UTF-8 encoding of one character. -/
def encodeChar (c : Char) : List Nat :=
  let n := c.toNat
  if n < 128 then [n]
  else if n < 2048 then [192 + n / 64, 128 + n % 64]
  else if n < 65536 then
    [224 + n / 4096, 128 + (n / 64) % 64, 128 + n % 64]
  else
    [240 + n / 262144, 128 + (n / 4096) % 64, 128 + (n / 64) % 64, 128 + n % 64]

/-- UTF-8 encoding of a decoded string (Python `u.encode('UTF-8')`). -/
def encodeUtf8 (cs : List Char) : List Nat := (cs.map encodeChar).flatten

/-- Python 2 implicit ASCII decoding of a byte string (used when bytes are
mixed into unicode formatting); `none` models `UnicodeDecodeError`. -/
def pyAsciiDecode (bs : List Nat) : Option (List Char) :=
  if bs.all (· < 128) then some (bs.map Char.ofNat) else none

/-! ## Callsign (`aprs/classes.py` lines 164-246) -/

/-- The `Callsign` object: `callsign` and `ssid` are decoded strings
(unicode in Python 2, since they come from the decoded frame), `digi`
is the digipeated flag. -/
structure Callsign where
  callsign : List Char
  ssid : List Char
  digi : Bool
deriving DecidableEq

/-- Modelled from the spec: `aprs.valid_callsign` is defined in the `aprs`
package `__init__`, which is not under `src/`; spec section 4.1 says a
callsign is valid when its base consists of 1-6 alphanumeric characters. -/
def valid_callsign (cs : List Char) : Bool :=
  decide (1 ≤ cs.length) && decide (cs.length ≤ 6) && cs.all Char.isAlphanum

/-- The dash-splitting tail of `Callsign.parse_text` (lines 242-246):
`_callsign.split('-')` with tuple unpacking into exactly two names, so a
token with two or more dashes raises `ValueError` (modelled as `none`);
the SSID substring is then `lstrip().rstrip()`-ed. -/
def callsignDashSplit (t : List Char) (digi : Bool) : Option Callsign :=
  if hasChar '-' t = true then
    match splitOnChar '-' t with
    | [a, b] => some { callsign := a, ssid := pyStripWs b, digi := digi }
    | _ => none
  else some { callsign := t, ssid := ['0'], digi := digi }

/-- `Callsign.parse_text` (lines 226-246): strip whitespace; if `'*'`
occurs anywhere, `strip('*')` (all leading and trailing stars) and set
`digi`; then split on `'-'`. -/
def callsignParseText (raw : List Char) : Option Callsign :=
  let t0 := pyStripWs raw
  if hasChar '*' t0 = true then callsignDashSplit (pyStripChar '*' t0) true
  else callsignDashSplit t0 false

/-- `Callsign.__init__` plus `Callsign.parse` (lines 182-219): the fresh
object has `callsign = ''`, which is never `valid_callsign`, so
`parse_text` always runs. -/
def callsignNew (raw : List Char) : Option Callsign :=
  if valid_callsign [] = true then some { callsign := [], ssid := ['0'], digi := false }
  else callsignParseText raw

/-- `Callsign.__repr__` (lines 188-201): render `BASE-SSID` when
`int(ssid) > 0`; when `int(ssid)` raises `ValueError` the fallback compares
the ssid string to the integer `0`, which in Python 2 is never equal, so
the dash form is rendered verbatim; append `'*'` when digipeated. -/
def callsignRepr (c : Callsign) : List Char :=
  let r := match pyInt c.ssid with
    | some n => if 0 < n then c.callsign ++ '-' :: c.ssid else c.callsign
    | none => c.callsign ++ '-' :: c.ssid
  if c.digi then r ++ ['*'] else r

/-! ## Frame (`aprs/classes.py` lines 71-161) -/

/-- A source or destination attribute of a `Frame`: `Frame.__init__` sets
`source = ''` and `destination = 'APRS'` (plain strings); `parse_text`
replaces them with `Callsign` objects. -/
inductive Addr where
  | str (s : List Char)
  | call (c : Callsign)
deriving DecidableEq

/-- Python truthiness of a source/destination attribute: an empty string
is falsy, a non-empty string and any `Callsign` object are truthy. -/
def Addr.truthy : Addr → Bool
  | .str s => !s.isEmpty
  | .call _ => true

/-- Python `str(...)` of a source/destination attribute (`Callsign`
defines only `__repr__`, which `str` falls back to). -/
def Addr.pyStr : Addr → List Char
  | .str s => s
  | .call c => callsignRepr c

/-- The `Frame` object: `frame` holds the raw bytes handed to the
constructor, `text` holds the payload re-encoded by
`frame_so_far.encode('UTF-8')`. -/
structure Frame where
  frame : List Nat
  source : Addr
  destination : Addr
  path : List Callsign
  text : List Nat
deriving DecidableEq

/-- Sequencing of `Callsign(...)` constructions over the comma-separated
path tokens (`for path in frame_so_far.split(',')[1:]`): `none` when any
construction raises. -/
def callsignList : List (List Char) → Option (List Callsign)
  | [] => some []
  | t :: ts =>
    match callsignNew t, callsignList ts with
    | some c, some cs => some (c :: cs)
    | _, _ => none

/-- The comma branch of `Frame.parse_text` (lines 145-150): the first
comma-separated token of the buffer becomes the destination `Callsign`,
each later token becomes a path `Callsign`, in order. -/
def parseCommaHeader (buf : List Char) : Option (Callsign × List Callsign) :=
  match splitOnChar ',' buf with
  | [] => none
  | d :: ps =>
    match callsignNew d, callsignList ps with
    | some dc, some pcs => some (dc, pcs)
    | _, _ => none

/-- One iteration of the `for char in self.frame.decode('UTF-8')` loop of
`Frame.parse_text` (lines 139-159), over the state
(object fields, `frame_so_far`); `none` models an escaping exception from
a `Callsign(...)` construction. -/
def stepChar (self : Frame) (buf : List Char) (ch : Char) :
    Option (Frame × List Char) :=
  if ch = '>' ∧ self.source.truthy = false then
      match callsignNew buf with
      | none => none
      | some c => some ({ self with source := Addr.call c }, [])
    else if ch = ':' then
      if self.path = [] then
        if hasChar ',' buf = true then
          match parseCommaHeader buf with
          | none => none
          | some dp =>
            some ({ self with destination := Addr.call dp.1, path := dp.2 }, [])
        else if self.destination.truthy = false then
          match callsignNew buf with
          | none => none
          | some c => some ({ self with destination := Addr.call c }, [])
        else some (self, buf ++ [ch])
      else some (self, buf ++ [ch])
    else some (self, buf ++ [ch])

/-- Runs the `parse_text` character loop over a decoded string. -/
def runChars (st : Frame × List Char) : List Char → Option (Frame × List Char)
  | [] => some st
  | ch :: rest =>
    match stepChar st.1 st.2 ch with
    | none => none
    | some st' => runChars st' rest

/-- `Frame.parse_text` (lines 133-161) on an already decoded string:
run the character loop from an empty `frame_so_far`, then store the
leftover buffer, UTF-8 encoded, as `text`. -/
def frameParseText (self : Frame) (cs : List Char) : Option Frame :=
  (runChars (self, []) cs).map fun st => { st.1 with text := encodeUtf8 st.2 }

/-- `Frame.parse` (lines 116-131): optionally replace `self.frame`; only
while `source` or `destination` is falsy, decode and run `parse_text`; a
`UnicodeDecodeError` from the decode is caught (`pass`), leaving the
fields as they are. `none` models an uncaught exception (`ValueError`
from a `Callsign`). -/
def frameParseMethod (self : Frame) (arg : Option (List Nat)) : Option Frame :=
  let s1 : Frame := { self with frame := arg.getD self.frame }
  if s1.source.truthy = false ∨ s1.destination.truthy = false then
    match decodeUtf8 s1.frame with
    | none => some s1
    | some cs => frameParseText s1 cs
  else some s1

/-- The field values set by `Frame.__init__` (lines 91-98) before `parse`
runs: empty source, destination the string `'APRS'`, empty path and text,
the raw frame bytes stored. -/
def frameInit (bs : List Nat) : Frame :=
  { frame := bs
    source := Addr.str []
    destination := Addr.str ("APRS".toList)
    path := []
    text := [] }

/-- `Frame(line)`: construct with the `__init__` defaults, then `parse`. -/
def frameOfLine (bs : List Nat) : Option Frame :=
  frameParseMethod (frameInit bs) none

/-- `Frame.__repr__` (lines 100-108):
`"%s>%s:%s" % (source, ','.join([dest] + path), text)` followed by
`.encode('UTF-8')`; the byte-string `text` is promoted into the unicode
formatting by an implicit ASCII decode (`none` models that failing). -/
def frameRepr (f : Frame) : Option (List Nat) :=
  match pyAsciiDecode f.text with
  | none => none
  | some t =>
    some (encodeUtf8 (f.source.pyStr ++ '>' ::
      (joinWith [','] (f.destination.pyStr :: f.path.map callsignRepr)) ++ ':' :: t))

/-! ## Shared authentication string and the TCP transport
(`aprs/classes.py` lines 22-68 and 249-360) -/

/-- The `version_str` of `APRS.__init__` (lines 38-43):
`"Python APRS Module v%s" % version`, where `version` comes from
`pkg_resources` (or the fallback `'GIT'`) and is kept as a parameter. -/
def versionStr (version : List Nat) : List Nat :=
  asciiBytes "Python APRS Module v" ++ version

/-- `APRS.__init__` (lines 45-46): the shared credential line
`' '.join(['user', user, 'pass', password, 'vers', version_str])`. -/
def aprsAuth (user password version : List Nat) : List Nat :=
  joinWith [32] [asciiBytes "user", user, asciiBytes "pass", password,
    asciiBytes "vers", versionStr version]

/-- Python `a or b` for an optional string argument: `None` and the empty
string both fall back to the default. -/
def pyOrBytes (a : Option (List Nat)) (b : List Nat) : List Nat :=
  match a with
  | some x => if x = [] then b else x
  | none => b

/-- `TCP.__init__` (lines 256-258): the filter defaults to
`'/'.join(['p', user])` and the full login string is
`' '.join([self._auth, 'filter', aprs_filter])`. -/
def tcpFullAuth (user password version : List Nat)
    (filt : Option (List Nat)) : List Nat :=
  joinWith [32] [aprsAuth user password version, asciiBytes "filter",
    pyOrBytes filt (asciiBytes "p" ++ [47] ++ user)]

/-- The login bytes sent by `TCP.start` (line 296):
`self._full_auth + '\n\r'` — a line feed followed by a carriage return. -/
def tcpLoginBytes (user password version : List Nat)
    (filt : Option (List Nat)) : List Nat :=
  tcpFullAuth user password version filt ++ [10, 13]

/-- Python `recvd_data.endswith('\r\n')`. -/
def endsWithCRLF (bs : List Nat) : Bool :=
  match bs.reverse with
  | 10 :: 13 :: _ => true
  | _ => false

/-- Python `recvd_data.split('\r\n')` on the byte buffer: split on the
two-byte sequence CR LF, leftmost first, keeping empty pieces. -/
def splitCRLF : List Nat → List (List Nat)
  | 13 :: 10 :: rest => [] :: splitCRLF rest
  | b :: rest =>
    match splitCRLF rest with
    | [] => [[b]]
    | l :: ls => (b :: l) :: ls
  | [] => [[]]

/-- One iteration of the `TCP.receive` loop body (lines 338-347) after a
non-empty read: append the chunk to the reassembly buffer; if the buffer
ends with CRLF, strip and split it into complete lines and clear the
buffer; otherwise split and keep the popped trailing partial line as the
new buffer. Returns the new buffer and the complete lines, in order. -/
def recvStep (buf chunk : List Nat) : List Nat × List (List Nat) :=
  let d := buf ++ chunk
  if endsWithCRLF d = true then ([], splitCRLF (pyStripWsB d))
  else ((splitCRLF d).getLastD [], (splitCRLF d).dropLast)

/-- The complete lines produced by feeding a sequence of reads through
the `TCP.receive` reassembly loop, starting from the given buffer. -/
def recvLines (buf : List Nat) : List (List Nat) → List (List Nat)
  | [] => []
  | ch :: rest =>
    let (b', ls) := recvStep buf ch
    ls ++ recvLines b' rest

/-- Python `line.startswith('#')` on a byte line (server comments). -/
def startsWithHash (bs : List Nat) : Bool :=
  match bs with
  | 35 :: _ => true
  | _ => false

/-- The frames delivered to the callback by `TCP.receive` (lines 349-356)
for a sequence of reads: every complete line not starting with `'#'` is
passed to the callback as `Frame(line)`, in order (`none` marks a line
whose `Frame` construction raises). -/
def dispatchedFrames (chunks : List (List Nat)) : List (Option Frame) :=
  ((recvLines [] chunks).filter (fun l => !startsWithHash l)).map frameOfLine

/-! ## The UDP transport (`aprs/classes.py` lines 363-389) -/

/-- Outcome of calling a Python method: it either returns (`ret` — the
methods modelled here return `None`) or raises an exception. -/
inductive PyOutcome where
  | ret
  | exn (msg : List Nat)
deriving DecidableEq

/-- Tests whether a call outcome is an escaping exception. -/
def PyOutcome.isError : PyOutcome → Bool
  | .ret => false
  | .exn _ => true

/-- `APRS.receive` (lines 64-68): the body is `pass`, so the call returns
`None` whatever the callback argument is. -/
def aprsReceive (callback : Option Nat) : PyOutcome := PyOutcome.ret

/-- The `UDP` class (lines 363-389) defines no `receive` of its own, so
method resolution finds the inherited `APRS.receive`. -/
def udpReceive (callback : Option Nat) : PyOutcome := aprsReceive callback

/-! ## Helper lemmas -/

theorem lastIs_hasChar (c : Char) :
    ∀ l : List Char, lastIs c l = true → hasChar c l = true := by
  intro l
  induction l with
  | nil => simp [lastIs]
  | cons x xs ih =>
    cases xs with
    | nil => intro h; simp only [lastIs] at h; simp [hasChar, h]
    | cons y ys =>
      intro h
      have h' : hasChar c (y :: ys) = true := ih h
      show (decide (x = c) || hasChar c (y :: ys)) = true
      rw [h', Bool.or_true]

theorem stepChar_dest_truthy (self : Frame) (buf : List Char) (ch : Char)
    (st' : Frame × List Char) (h : stepChar self buf ch = some st')
    (hd : self.destination.truthy = true) : st'.1.destination.truthy = true := by
  unfold stepChar at h
  repeat' split at h
  all_goals first
    | exact Option.noConfusion h
    | (injection h with h'; subst h'; first | rfl | exact hd)

theorem stepChar_source_truthy (self : Frame) (buf : List Char) (ch : Char)
    (st' : Frame × List Char) (h : stepChar self buf ch = some st')
    (hs : self.source.truthy = true) : st'.1.source.truthy = true := by
  unfold stepChar at h
  repeat' split at h
  all_goals first
    | exact Option.noConfusion h
    | (injection h with h'; subst h'; first | rfl | exact hs)

theorem stepChar_gt_source (self : Frame) (buf : List Char)
    (st' : Frame × List Char) (h : stepChar self buf '>' = some st') :
    st'.1.source.truthy = true := by
  unfold stepChar at h
  split at h
  · split at h
    · exact Option.noConfusion h
    · injection h with h'; subst h'; rfl
  · rename_i hcond
    have hs : self.source.truthy = true := by
      cases hsv : self.source.truthy with
      | false => exact absurd ⟨rfl, hsv⟩ hcond
      | true => rfl
    rw [if_neg (by decide : ¬('>' : Char) = ':')] at h
    injection h with h'; subst h'; exact hs

theorem runChars_inv (P : Frame → Prop)
    (hstep : ∀ self buf ch st', stepChar self buf ch = some st' →
      P self → P st'.1) :
    ∀ (cs : List Char) (st st' : Frame × List Char),
      runChars st cs = some st' → P st.1 → P st'.1 := by
  intro cs
  induction cs with
  | nil =>
    intro st st' h hp
    unfold runChars at h
    injection h with h'; subst h'; exact hp
  | cons ch rest ih =>
    intro st st' h hp
    unfold runChars at h
    cases hc : stepChar st.1 st.2 ch <;> rw [hc] at h
    · exact Option.noConfusion h
    · rename_i st1
      exact ih _ _ h (hstep _ _ _ _ hc hp)

theorem runChars_gt_source :
    ∀ (cs : List Char) (st st' : Frame × List Char),
      runChars st cs = some st' → ('>' : Char) ∈ cs →
      st'.1.source.truthy = true := by
  intro cs
  induction cs with
  | nil => intro st st' h hm; cases hm
  | cons ch rest ih =>
    intro st st' h hm
    unfold runChars at h
    cases hc : stepChar st.1 st.2 ch <;> rw [hc] at h
    · exact Option.noConfusion h
    · rename_i st1
      rcases List.mem_cons.mp hm with heq | hmem
      · subst heq
        exact runChars_inv (fun f => f.source.truthy = true)
          (fun a b c d hx hy => stepChar_source_truthy a b c d hx hy)
          rest st1 st' h (stepChar_gt_source st.1 st.2 st1 hc)
      · exact ih st1 st' h hmem

theorem frameOfLine_decode (bs : List Nat) (cs : List Char)
    (hdec : decodeUtf8 bs = some cs) :
    frameOfLine bs = frameParseText (frameInit bs) cs := by
  unfold frameOfLine frameParseMethod
  simp [frameInit, Addr.truthy, hdec]

/-! ## Claim theorems -/

/-- C1: evaluation of the code at the claimed input. The claim says that
for a no-comma header the first `':'` assigns the buffer as the
destination `Callsign` and leaves only `"Hello"` as text. In the code the
`elif not self.destination:` branch is unreachable because `__init__`
pre-sets `destination = 'APRS'`, which is truthy, so the `':'` and the
header are appended to the buffer: the parse of `"W2GMD>APRS:Hello"`
keeps the default string destination and yields text `"APRS:Hello"`,
not `"Hello"`. -/
theorem pathless_header_left_in_text :
    frameOfLine (asciiBytes "W2GMD>APRS:Hello") = some
      { frame := asciiBytes "W2GMD>APRS:Hello"
        source := Addr.call { callsign := "W2GMD".toList, ssid := "0".toList, digi := false }
        destination := Addr.str ("APRS".toList)
        path := []
        text := asciiBytes "APRS:Hello" } ∧
    asciiBytes "APRS:Hello" ≠ asciiBytes "Hello" := by decide

/-- C2: evaluation of the code at the claimed input. The claim says only
the first `':'` after the header triggers destination resolution and
`parse("A>B:time: 12:00").text == "time: 12:00"`. Because the truthy
default destination `'APRS'` blocks the no-comma resolution branch, no
`':'` resolves this header at all and the text is `"B:time: 12:00"`. -/
theorem colon_retained_in_unresolved_header :
    (frameOfLine (asciiBytes "A>B:time: 12:00")).map Frame.text
      = some (asciiBytes "B:time: 12:00") ∧
    asciiBytes "B:time: 12:00" ≠ asciiBytes "time: 12:00" := by decide

/-- A frame built from valid inputs: valid one-letter source and
destination callsigns, empty path, payload `"x"`. -/
def exFrameC3 : Frame :=
  { frame := []
    source := Addr.call { callsign := "A".toList, ssid := "0".toList, digi := false }
    destination := Addr.call { callsign := "B".toList, ssid := "0".toList, digi := false }
    path := []
    text := asciiBytes "x" }

/-- C3: evaluation of the code at a failing input. The round-trip law
fails for every frame with an empty path: `str(f)` is `"A>B:x"`, but
re-parsing cannot consume the `B:` header (the truthy default destination
blocks the no-comma branch), so the second `str` is `"A>APRS:B:x"`. -/
theorem roundtrip_fails_for_empty_path :
    frameRepr exFrameC3 = some (asciiBytes "A>B:x") ∧
    (frameOfLine (asciiBytes "A>B:x")).bind frameRepr
      = some (asciiBytes "A>APRS:B:x") ∧
    asciiBytes "A>APRS:B:x" ≠ asciiBytes "A>B:x" := by decide

/-- C4: evaluation of the code at a failing input. The claim says Callsign
parsing never raises and splits a multi-dash token on the first `'-'`.
`"A-B-C".split('-')` has three pieces, so the tuple unpacking
`_callsign, ssid = _callsign.split('-')` raises `ValueError` (modelled as
`none`), and the exception propagates out of `Frame` parsing as well
(only `UnicodeDecodeError` is caught there). -/
theorem multi_dash_callsign_raises :
    splitOnChar '-' ("A-B-C".toList) = ["A".toList, "B".toList, "C".toList] ∧
    callsignParseText ("A-B-C".toList) = none ∧
    frameOfLine (asciiBytes "A-B-C>APRS:hi") = none := by decide

/-- C5 (counterexample): the claim says a leading `'*'` is not removed
from the base. For the token `"*A*"` the code runs `strip('*')`, which
removes the leading star too: the stored base is `"A"`, not `"*A"`. -/
theorem leading_star_stripped_counterexample :
    callsignParseText ("*A*".toList)
      = some { callsign := "A".toList, ssid := "0".toList, digi := true } ∧
    "A".toList ≠ "*A".toList := by decide

/-- C5 (amended): for every whitespace-trimmed token that ends with `'*'`,
parsing sets the digipeated flag and strips ALL leading and trailing `'*'`
characters (interior stars are kept) before deriving base and SSID by the
usual dash split. -/
theorem starred_token_strips_all_stars (raw : List Char)
    (h : lastIs '*' (pyStripWs raw) = true) :
    callsignParseText raw
      = callsignDashSplit (pyStripChar '*' (pyStripWs raw)) true := by
  have hc : hasChar '*' (pyStripWs raw) = true :=
    lastIs_hasChar '*' (pyStripWs raw) h
  unfold callsignParseText
  simp [hc]

/-- C5 (witness): the amended theorem instantiated at `"N0CALL-5*"`. -/
theorem starred_token_strips_all_stars_witness :
    lastIs '*' (pyStripWs ("N0CALL-5*".toList)) = true ∧
    callsignParseText ("N0CALL-5*".toList)
      = callsignDashSplit (pyStripChar '*' (pyStripWs ("N0CALL-5*".toList))) true :=
  ⟨by decide, starred_token_strips_all_stars ("N0CALL-5*".toList) (by decide)⟩

/-- C6: a byte string that does not decode as UTF-8 makes `parse_text`
fail before running (`Frame.parse` catches the `UnicodeDecodeError` and
passes), so `Frame(line)` returns normally with the `__init__` defaults:
empty source, destination rendering as `"APRS"`, empty path, empty
text. -/
theorem undecodable_bytes_yield_default_frame (bs : List Nat)
    (h : decodeUtf8 bs = none) :
    frameOfLine bs = some (frameInit bs) ∧
    (frameInit bs).source = Addr.str [] ∧
    (frameInit bs).destination.pyStr = "APRS".toList ∧
    (frameInit bs).path = [] ∧
    (frameInit bs).text = [] := by
  refine ⟨?_, rfl, rfl, rfl, rfl⟩
  unfold frameOfLine frameParseMethod
  simp [frameInit, Addr.truthy, h]

/-- C6 (witness): the theorem instantiated at the undecodable byte
`0xFF`. -/
theorem undecodable_bytes_yield_default_frame_witness :
    decodeUtf8 [255] = none ∧
    (frameOfLine [255] = some (frameInit [255]) ∧
     (frameInit [255]).source = Addr.str [] ∧
     (frameInit [255]).destination.pyStr = "APRS".toList ∧
     (frameInit [255]).path = [] ∧
     (frameInit [255]).text = []) :=
  ⟨by decide, undecodable_bytes_yield_default_frame [255] (by decide)⟩

/-- C7: evaluation of the receive loop at the claimed input. The chunks
`"A>B:msg1\r\nA>B:m"` and `"sg2\r\n"` are reassembled into exactly two
complete lines, dispatched in order — but the frames' payload text fields
are `"B:msg1"` and `"B:msg2"`, not `"msg1"` and `"msg2"`, because the
pathless header is never consumed by `Frame.parse_text` (the truthy
default destination blocks the no-comma branch). -/
theorem reassembly_two_frames_header_in_payload :
    dispatchedFrames [asciiBytes "A>B:msg1\r\nA>B:m", asciiBytes "sg2\r\n"]
      = [some { frame := asciiBytes "A>B:msg1"
                source := Addr.call { callsign := "A".toList, ssid := "0".toList, digi := false }
                destination := Addr.str ("APRS".toList)
                path := []
                text := asciiBytes "B:msg1" },
         some { frame := asciiBytes "A>B:msg2"
                source := Addr.call { callsign := "A".toList, ssid := "0".toList, digi := false }
                destination := Addr.str ("APRS".toList)
                path := []
                text := asciiBytes "B:msg2" }] ∧
    asciiBytes "B:msg1" ≠ asciiBytes "msg1" := by decide

/-- C8 (counterexample): the claim says the login line is CRLF-terminated
(`"\r\n"`). `TCP.start` sends `self._full_auth + '\n\r'` — a line feed
followed by a carriage return — so the sent bytes differ from the claimed
ones in their last two positions. -/
theorem login_terminator_lf_cr_counterexample :
    tcpLoginBytes (asciiBytes "W2GMD") (asciiBytes "-1") (asciiBytes "GIT") none
      = asciiBytes "user W2GMD pass -1 vers Python APRS Module vGIT filter p/W2GMD\n\r" ∧
    asciiBytes "user W2GMD pass -1 vers Python APRS Module vGIT filter p/W2GMD\n\r"
      ≠ asciiBytes "user W2GMD pass -1 vers Python APRS Module vGIT filter p/W2GMD\r\n" := by
  decide

/-- C8 (amended): the TCP login line sent during `start()` is exactly
`user <user> pass <password> vers Python APRS Module v<version> filter
<filter-expr>` terminated by LF CR (`"\n\r"`), where the filter defaults
to `p/<user>` when none (or an empty one) is configured. -/
theorem tcp_login_line_format (user password version fv : List Nat) :
    tcpLoginBytes user password version none
      = asciiBytes "user" ++ [32] ++ user ++ [32] ++ asciiBytes "pass" ++ [32] ++
        password ++ [32] ++ asciiBytes "vers" ++ [32] ++
        asciiBytes "Python APRS Module v" ++ version ++ [32] ++
        asciiBytes "filter" ++ [32] ++ asciiBytes "p" ++ [47] ++ user ++ [10, 13] ∧
    tcpLoginBytes user password version (some fv)
      = asciiBytes "user" ++ [32] ++ user ++ [32] ++ asciiBytes "pass" ++ [32] ++
        password ++ [32] ++ asciiBytes "vers" ++ [32] ++
        asciiBytes "Python APRS Module v" ++ version ++ [32] ++
        asciiBytes "filter" ++ [32] ++
        (if fv = [] then asciiBytes "p" ++ [47] ++ user else fv) ++ [10, 13] := by
  constructor
  · simp [tcpLoginBytes, tcpFullAuth, aprsAuth, versionStr, pyOrBytes, joinWith,
      List.append_assoc]
  · by_cases hfv : fv = []
    · subst hfv
      simp [tcpLoginBytes, tcpFullAuth, aprsAuth, versionStr, pyOrBytes, joinWith,
        List.append_assoc]
    · simp [tcpLoginBytes, tcpFullAuth, aprsAuth, versionStr, pyOrBytes, joinWith,
        List.append_assoc, hfv]

/-- C9 (counterexample): the claim says calling `receive` on the UDP
transport is rejected with an observable error. `UDP` inherits
`APRS.receive`, whose body is `pass`: the call returns `None` and raises
nothing. -/
theorem udp_receive_noop_counterexample :
    udpReceive none = PyOutcome.ret ∧ (udpReceive none).isError = false :=
  ⟨rfl, rfl⟩

/-- C9 (amended): calling `receive` on the UDP transport is silently
ignored as a no-op — the inherited `APRS.receive` executes `pass` and
returns normally for every callback argument, with no error raised. -/
theorem udp_receive_silent_noop (callback : Option Nat) :
    udpReceive callback = PyOutcome.ret ∧
    (udpReceive callback).isError = false :=
  ⟨rfl, rfl⟩

/-- C10 (counterexample): the claim quantifies over every line containing
`'>'`. For the undecodable line `[0x3E, 0xFF]` (which contains the `'>'`
byte), construction leaves `source` empty, so the guard still re-parses:
a later `parse` call with a new decodable frame argument changes
`source`. -/
theorem undecodable_gt_line_reparse_changes_fields :
    frameOfLine [62, 255] = some (frameInit [62, 255]) ∧
    (frameInit [62, 255]).source = Addr.str [] ∧
    (frameParseMethod (frameInit [62, 255]) (some (asciiBytes "X>Y:z"))).map Frame.source
      = some (Addr.call { callsign := "X".toList, ssid := "0".toList, digi := false }) ∧
    Addr.call { callsign := "X".toList, ssid := "0".toList, digi := false }
      ≠ Addr.str [] := by decide

/-- C10 (amended): for every line that decodes as text and contains `'>'`
and whose `Frame` construction returns normally, any further `parse` call
— with or without a new frame argument — returns normally and leaves
`source`, `destination`, `path` and `text` unchanged (only the stored raw
`frame` attribute is replaced when an argument is given): the guard
re-parses only while `source` or `destination` is falsy, and after such a
construction both are truthy. -/
theorem parse_idempotent_once_resolved (bs : List Nat) (cs : List Char)
    (f : Frame) (arg : Option (List Nat))
    (hdec : decodeUtf8 bs = some cs) (hgt : ('>' : Char) ∈ cs)
    (hp : frameOfLine bs = some f) :
    frameParseMethod f arg = some { f with frame := arg.getD f.frame } := by
  rw [frameOfLine_decode bs cs hdec] at hp
  unfold frameParseText at hp
  cases hrun : runChars (frameInit bs, []) cs <;> rw [hrun] at hp
  · exact Option.noConfusion hp
  · rename_i st
    simp only [Option.map_some'] at hp
    injection hp with hp'
    subst hp'
    have hfs : st.1.source.truthy = true := runChars_gt_source cs _ _ hrun hgt
    have hfd : st.1.destination.truthy = true := by
      refine runChars_inv (fun fr => fr.destination.truthy = true)
        (fun a b c d hx hy => stepChar_dest_truthy a b c d hx hy)
        cs _ _ hrun ?_
      rfl
    unfold frameParseMethod
    simp [hfs, hfd]

/-- The frame produced by parsing `"X>Y:z"`, used to instantiate the C10
theorem. -/
def exFrameC10 : Frame :=
  { frame := asciiBytes "X>Y:z"
    source := Addr.call { callsign := "X".toList, ssid := "0".toList, digi := false }
    destination := Addr.str ("APRS".toList)
    path := []
    text := asciiBytes "Y:z" }

/-- C10 (witness): the amended theorem instantiated at the decodable line
`"X>Y:z"` and a re-parse with a fresh frame argument. -/
theorem parse_idempotent_once_resolved_witness :
    frameOfLine (asciiBytes "X>Y:z") = some exFrameC10 ∧
    frameParseMethod exFrameC10 (some (asciiBytes "A>B,C:d"))
      = some { exFrameC10 with
          frame := (some (asciiBytes "A>B,C:d")).getD exFrameC10.frame } :=
  ⟨by decide,
   parse_idempotent_once_resolved (asciiBytes "X>Y:z") ("X>Y:z".toList)
     exFrameC10 (some (asciiBytes "A>B,C:d")) (by decide) (by decide) (by decide)⟩
